import Mathlib

/-!
Shallow embedding of `src/image_chan/image.py` (the `image_chan` package of
the `img` repository): the `Image` profile base class, its `Icon` and
`Wallpaper` variants, the module-level `is_animated` helper, and the `Bulk`
batch class.  Decoded images are externally owned PIL objects; they are
embedded as records carrying exactly the attributes the code reads
(`mode`, `format`, `size`, `getextrema()`, the optional `is_animated`
attribute), and the external PIL operations the code calls
(`convert(mode="RGB")`, `resize(...)`) are modelled as functions on those
records.
-/

/-- A decoded image as handed to a profile: the attributes of a PIL image
object that the code reads.  `extrema` is the per-band `(min, max)` list
returned by `getextrema()`; for an RGBA image its last entry is the alpha
band.  `animAttr` is the `is_animated` attribute when the object has one
(`getattr(image, "is_animated", False)` reads it with default `False`). -/
structure PILImage where
  mode : String
  format : Option String
  size : Nat × Nat
  extrema : List (Nat × Nat)
  animAttr : Option Bool
deriving Repr, DecidableEq

/-- Module-level helper `is_animated(image)`:
`getattr(image, "is_animated", False)`. -/
def is_animated (image : PILImage) : Bool :=
  image.animAttr.getD false

/-- `image.getextrema()[-1][0]`: the minimum of the last band (the alpha
band for RGBA images). -/
def alpha_min (image : PILImage) : Nat :=
  (image.extrema.getLastD (0, 0)).1

/-- `Image.has_translucent_alpha`: `True if image.getextrema()[-1][0] < 255
else False`. -/
def has_translucent_alpha (image : PILImage) : Bool :=
  if alpha_min image < 255 then true else false

/-- Model of the external PIL operation `image.convert(mode="RGB")` on an
RGBA image: the result has mode `"RGB"`, no declared source format (PIL
gives converted images `format = None`), the same dimensions, the extrema of
the colour bands only (the alpha band is dropped), and no `is_animated`
attribute (the result is a fresh single-frame image). -/
def convertRGB (image : PILImage) : PILImage :=
  { mode := "RGB", format := none, size := image.size,
    extrema := image.extrema.dropLast, animAttr := none }

/-- Model of the external PIL operation
`image.resize(size, resample, reducing_gap=gap)`: the result has the
requested dimensions, the same mode, no declared source format and no
`is_animated` attribute (PIL returns a fresh single-frame image); the pixel
content is abstracted away, so the band extrema are carried over unchanged
and the resampling parameters do not affect the abstract result. -/
def PIL_resize (image : PILImage) (size : Nat × Nat) (resample : Nat)
    (reducingGap : ℚ) : PILImage :=
  { mode := image.mode, format := none, size := size,
    extrema := image.extrema, animAttr := none }

/-- The documented values of the external PIL resampling-filter enum
(`PIL.Image.Resampling`): `NEAREST = 0`, `LANCZOS = 1` (historically named
`ANTIALIAS`), `BILINEAR = 2`, `BICUBIC = 3`.  The integer class constants
`RESAMPLE` in the source are values of this enum. -/
def PIL_NEAREST : Nat := 0

def PIL_LANCZOS : Nat := 1

def PIL_BILINEAR : Nat := 2

def PIL_BICUBIC : Nat := 3

/-- The per-variant class constants: `RESAMPLE`, `REDUCING_GAP`, `QUALITY`
and the `SUPPORTED_IMAGES` mode-to-formats table (a Python dict, embedded as
an association list in declaration order). -/
structure Config where
  RESAMPLE : Nat
  REDUCING_GAP : ℚ
  QUALITY : Nat
  SUPPORTED_IMAGES : List (String × List String)
deriving Repr, DecidableEq

/-- The `Icon` variant's constants. -/
def Icon : Config :=
  { RESAMPLE := 1, REDUCING_GAP := 2, QUALITY := 70,
    SUPPORTED_IMAGES :=
      [("RGB", ["JPEG", "PNG", "WEBP", "GIF"]),
       ("RGBA", ["PNG", "GIF", "WEBP"]),
       ("P", ["GIF"])] }

/-- The `Wallpaper` variant's constants. -/
def Wallpaper : Config :=
  { RESAMPLE := 2, REDUCING_GAP := 2, QUALITY := 75,
    SUPPORTED_IMAGES :=
      [("RGB", ["JPEG", "PNG"]),
       ("RGBA", ["PNG"])] }

/-- `Image.SUPPORTED_MODES`: `tuple(SUPPORTED_IMAGES.keys())`. -/
def SUPPORTED_MODES (c : Config) : List String :=
  c.SUPPORTED_IMAGES.map Prod.fst

/-- `Image.SUPPORTED_FORMATS`: `SUPPORTED_IMAGES.get(image.mode)` — the
dict lookup returns `None` when the mode is not a key. -/
def SUPPORTED_FORMATS (c : Config) (mode : String) : Option (List String) :=
  c.SUPPORTED_IMAGES.lookup mode

/-- `Image.is_supported`: the mode must be a key of `SUPPORTED_IMAGES`,
and a truthy declared source format (a non-empty string, Python truthiness)
must be in that mode's format list.  The inner `None` default is
unreachable: the format check only runs once the mode was found among the
keys, so the dict lookup succeeds. -/
def is_supported (c : Config) (image : PILImage) : Bool :=
  if ¬ image.mode ∈ SUPPORTED_MODES c then false
  else
    match image.format with
    | some f =>
        if f ≠ "" then
          if ¬ f ∈ (SUPPORTED_FORMATS c (image.mode)).getD [] then false
          else true
        else true
    | none => true

/-- The `ImageSupportError` raised by the `image` setter
(`src/image_chan/exception.py` is not under `src/`; modelled from the spec:
the error carries the offending `(format, mode)` pair and the variant's
allowed table, exactly the data interpolated into the source's f-string). -/
structure ImageSupportError where
  format : Option String
  mode : String
  supported : List (String × List String)
deriving Repr, DecidableEq

def mkImageSupportError (c : Config) (image : PILImage) : ImageSupportError :=
  { format := image.format, mode := image.mode,
    supported := c.SUPPORTED_IMAGES }

/-- Outcome of running the `image` property setter: the Python setter
assigns `self._image = image` BEFORE the support check, so even a raising
assignment leaves an image stored in the slot; `stored` is the final
`_image` value and `err` the raised `ImageSupportError`, if any. -/
structure SetImageResult where
  stored : PILImage
  err : Option ImageSupportError
deriving Repr, DecidableEq

/-- The `image` property setter.  Order of the source: store the image;
raise `ImageSupportError` if `is_supported` fails; if the mode is `RGBA`
without translucent alpha, assign `self.image = self.image.convert("RGB")`,
which re-enters the setter.  The re-entrant call is unfolded once: the
converted image has mode `"RGB"`, never `"RGBA"`, so its own assignment only
re-runs the support check and the recursion stops there. -/
def setImage (c : Config) (image : PILImage) : SetImageResult :=
  if is_supported c image = false then
    { stored := image, err := some (mkImageSupportError c image) }
  else if image.mode = "RGBA" ∧ has_translucent_alpha image = false then
    if is_supported c (convertRGB image) = false then
      { stored := convertRGB image,
        err := some (mkImageSupportError c (convertRGB image)) }
    else
      { stored := convertRGB image, err := none }
  else
    { stored := image, err := none }

/-- A Python value accepted by the `format` setter: a single string, or an
ordered preference list given as a Python `list` or `tuple` (the setter
tests `isinstance(format, (tuple, list))`, so the two are kept distinct). -/
inductive PyFmt where
  | str (s : String)
  | list (l : List String)
  | tup (l : List String)
deriving Repr, DecidableEq

/-- The preference-resolution body of the `format` setter, run when the
value is a `tuple` or `list` with more than one element.  `prev` is the
value of the `_format` slot before the assignment (`none` when the slot was
never assigned); when no rule matches, the setter assigns nothing and the
slot keeps it. -/
def resolveFormat (image : PILImage) (prev : Option PyFmt)
    (l : List String) : Option PyFmt :=
  if is_animated image = true ∧ "GIF" ∈ l then some (PyFmt.str "GIF")
  else if image.mode = "RGBA" ∧ "PNG" ∈ l then some (PyFmt.str "PNG")
  else if image.mode = "RGB" ∧ "JPEG" ∈ l then some (PyFmt.str "JPEG")
  else prev

/-- The `format` property setter: preference resolution for a `tuple` or
`list` of length `> 1`, otherwise `self._format = format` unchanged.
`image` is the profile's stored image (`self.is_animated` and
`self.image.mode` read it); the result is the `_format` slot after the
assignment. -/
def setFormat (image : PILImage) (prev : Option PyFmt) (f : PyFmt) :
    Option PyFmt :=
  match f with
  | PyFmt.str s => some (PyFmt.str s)
  | PyFmt.list l =>
      if l.length > 1 then resolveFormat image prev l
      else some (PyFmt.list l)
  | PyFmt.tup l =>
      if l.length > 1 then resolveFormat image prev l
      else some (PyFmt.tup l)

/-- The `fp` slot: `self._fp = fp if fp else BytesIO()` — a falsy argument
(`None`) is replaced by a fresh in-memory buffer. -/
inductive Sink where
  | fresh
  | supplied (id : Nat)
deriving Repr, DecidableEq

def setFp (fp : Option Nat) : Sink :=
  match fp with
  | some i => Sink.supplied i
  | none => Sink.fresh

/-- The attribute slots of a constructed profile: `_image`, `size`,
`_format` (`none` when the slot was never assigned, in which case reading
`self.format` raises `AttributeError`), `_fp`. -/
structure ProfileState where
  image : PILImage
  size : Nat × Nat
  format : Option PyFmt
  fp : Sink
deriving Repr, DecidableEq

namespace Image

/-- `Image.__init__(image, size, format="WEBP", fp=None)` for the variant
with constants `c`: assigns `self.image` (which may raise, in which case
construction fails and no object is produced), then `self.size`,
`self.format` (which reads the stored image) and `self.fp`. -/
def init (c : Config) (image : PILImage) (size : Nat × Nat) (format : PyFmt)
    (fp : Option Nat) : Except ImageSupportError ProfileState :=
  let r := setImage c image
  match r.err with
  | some e => Except.error e
  | none =>
      Except.ok
        { image := r.stored, size := size,
          format := setFormat r.stored none format, fp := setFp fp }

/-- A later `profile.image = image` assignment on a constructed profile:
the new `_image` slot (kept even when the setter raises) together with the
raised error, if any. -/
def assign (c : Config) (st : ProfileState) (image : PILImage) :
    ProfileState × Option ImageSupportError :=
  let r := setImage c image
  ({ st with image := r.stored }, r.err)

/-- `Image.is_animated` (property): delegates to the module helper on the
stored image. -/
def profileIsAnimated (st : ProfileState) : Bool :=
  is_animated st.image

/-- `Image.resize`: `self.image = self.image.resize(self.size,
self.RESAMPLE, reducing_gap=self.REDUCING_GAP)` — the result goes back
through the `image` setter.  Pure state transformation, no I/O. -/
def resize (c : Config) (st : ProfileState) :
    ProfileState × Option ImageSupportError :=
  assign c st (PIL_resize st.image st.size c.RESAMPLE c.REDUCING_GAP)

/-- What `Image.save` hands to the external encoder: the stored image, the
resolved format (`self.format`; reading an unassigned `_format` slot raises
`AttributeError`, hence the `Option`), the variant's fixed quality, and
`optimize=True`. -/
structure Encoded where
  image : PILImage
  format : PyFmt
  quality : Nat
  optimize : Bool
deriving Repr, DecidableEq

def save (c : Config) (st : ProfileState) : Option Encoded :=
  st.format.map fun f =>
    { image := st.image, format := f, quality := c.QUALITY, optimize := true }

/-- The attribute names an `Image` (hence `Icon` / `Wallpaper`) instance
exposes, read off the class body: the slots written by `__init__`, the
properties, and the methods (plus, on the variants, the four class
constants).  Notably absent: `img`, `improve_consistency`, `name`. -/
def attributeNames : List String :=
  ["image", "size", "format", "fp",
   "_image", "_format", "_fp",
   "is_supported", "is_animated", "has_translucent_alpha",
   "SUPPORTED_MODES", "SUPPORTED_FORMATS",
   "resize", "save",
   "RESAMPLE", "REDUCING_GAP", "QUALITY", "SUPPORTED_IMAGES"]

end Image

/-- Python runtime errors that `Bulk.resize` can raise on profile items. -/
inductive PyError where
  | attributeError (attr : String)
  | typeError (msg : String)
deriving Repr, DecidableEq

namespace Bulk

/-- `Bulk.resize(path="")`, embedded at item type `ProfileState` (the
`Image` class of the same source file).  The loop body's first expression is
`obj.img.mode`, and `img` is not among the attributes the `Image` class
defines (see `Image.attributeNames`), so for every non-empty batch of
profiles the first iteration raises `AttributeError` before any buffer is
produced; an empty batch falls through the loop and returns the empty list.
The statements after that lookup (`obj.improve_consistency()`, also
undefined on `Image`; `obj.resize()`; `obj.save(path + obj.name)` and
`obj.save(bytes_img)`, positional arguments that `Image.save(**params)`
rejects) are unreachable at this item type. -/
def resize (objs : List ProfileState) (path : String) :
    Except PyError (List Image.Encoded) :=
  match objs with
  | [] => Except.ok []
  | _ :: _ => Except.error (PyError.attributeError "img")

end Bulk

/-! Concrete decoded images used as witnesses. -/

/-- A static RGB image with source format JPEG. -/
def rgbJpegImg : PILImage :=
  { mode := "RGB", format := some "JPEG", size := (8, 6),
    extrema := [(0, 255), (0, 255), (0, 255)], animAttr := none }

/-- An RGBA PNG whose alpha band is fully opaque (minimum alpha 255). -/
def rgbaOpaqueImg : PILImage :=
  { mode := "RGBA", format := some "PNG", size := (8, 6),
    extrema := [(0, 255), (0, 255), (0, 255), (255, 255)], animAttr := none }

/-- An RGBA PNG with genuine translucency (minimum alpha 0). -/
def rgbaClearImg : PILImage :=
  { mode := "RGBA", format := some "PNG", size := (8, 6),
    extrema := [(0, 255), (0, 255), (0, 255), (0, 255)], animAttr := none }

/-- An animated palette GIF (`is_animated` attribute present and true). -/
def animGifImg : PILImage :=
  { mode := "P", format := some "GIF", size := (8, 6),
    extrema := [(0, 255)], animAttr := some true }

/-- A CMYK JPEG: its mode is a key of neither variant's table. -/
def cmykImg : PILImage :=
  { mode := "CMYK", format := some "JPEG", size := (8, 6),
    extrema := [(0, 255), (0, 255), (0, 255), (0, 255)], animAttr := none }

/-- A valid static RGB profile state (as produced by
`Image.init Icon rgbJpegImg (4, 3) (PyFmt.str "WEBP") none`). -/
def rgbProfile : ProfileState :=
  { image := rgbJpegImg, size := (4, 3),
    format := some (PyFmt.str "WEBP"), fp := Sink.fresh }

/-- A valid translucent-RGBA profile state (as produced by
`Image.init Icon rgbaClearImg (4, 3) (PyFmt.str "PNG") none`). -/
def rgbaProfile : ProfileState :=
  { image := rgbaClearImg, size := (4, 3),
    format := some (PyFmt.str "PNG"), fp := Sink.fresh }

/-! Helper lemmas about the `image` setter. -/

/-- The setter never changes the dimensions of what it stores: it keeps the
assigned image or its RGB conversion, and `convert` preserves size. -/
theorem setImage_stored_size (c : Config) (img : PILImage) :
    (setImage c img).stored.size = img.size := by
  unfold setImage
  split
  · rfl
  · split
    · split
      · rfl
      · rfl
    · rfl

/-- On either shipped variant, the RGB conversion of any image passes the
support check: its mode is `"RGB"`, a key of both tables, and it declares no
source format. -/
theorem is_supported_convert_variant (c : Config)
    (hc : c = Icon ∨ c = Wallpaper) (img : PILImage) :
    is_supported c (convertRGB img) = true := by
  rcases hc with rfl | rfl <;>
    simp [is_supported, convertRGB, SUPPORTED_MODES, Icon, Wallpaper]

/-- On either shipped variant, the setter raises exactly when the assigned
image fails `is_supported` (the re-check after an RGBA-to-RGB conversion
never fails there). -/
theorem setImage_err_none_iff_variant (c : Config)
    (hc : c = Icon ∨ c = Wallpaper) (img : PILImage) :
    (setImage c img).err = none ↔ is_supported c img = true := by
  unfold setImage
  cases hb : is_supported c img with
  | false => simp [hb]
  | true =>
      simp only [Bool.true_eq_false, if_false]
      split
      · rw [is_supported_convert_variant c hc img]
        simp
      · simp

/-- For every variant table: when the setter does not raise, the image it
leaves stored passes the support check. -/
theorem setImage_ok_stored_supported (c : Config) (img : PILImage)
    (h : (setImage c img).err = none) :
    is_supported c (setImage c img).stored = true := by
  unfold setImage at h ⊢
  cases hb : is_supported c img with
  | false => simp [hb] at h
  | true =>
      simp only [hb] at h ⊢
      by_cases h2 : img.mode = "RGBA" ∧ has_translucent_alpha img = false
      · simp only [h2, if_true] at h ⊢
        cases hb2 : is_supported c (convertRGB img) with
        | false => simp [hb2] at h
        | true => simp [hb2]
      · simp only [h2, if_false] at h ⊢
        simpa using hb

/-- The spec-level reading of `is_supported`, for images whose declared
format is a non-empty string (PIL format tags are never the empty string):
the mode is a key of the table and any declared format is in that mode's
list. -/
theorem is_supported_iff_mem (c : Config) (img : PILImage)
    (hf : ∀ s, img.format = some s → s ≠ "") :
    is_supported c img = true ↔
      (img.mode ∈ SUPPORTED_MODES c ∧
        ∀ s, img.format = some s →
          s ∈ (SUPPORTED_FORMATS c (img.mode)).getD []) := by
  unfold is_supported
  by_cases hm : img.mode ∈ SUPPORTED_MODES c
  · simp only [hm, not_true_eq_false, if_false, true_and]
    cases hfmt : img.format with
    | none => simp
    | some s =>
        have hs : s ≠ "" := hf s hfmt
        simp only [hs, if_true, ne_eq, not_false_eq_true, ite_not]
        by_cases hin : s ∈ (SUPPORTED_FORMATS c (img.mode)).getD []
        · simp [hin]
        · simp [hin]
  · simp [hm]

/-- `is_supported` in particular certifies that the mode is a table key. -/
theorem is_supported_mode_mem (c : Config) (img : PILImage)
    (h : is_supported c img = true) : img.mode ∈ SUPPORTED_MODES c := by
  unfold is_supported at h
  by_cases hm : img.mode ∈ SUPPORTED_MODES c
  · exact hm
  · simp [hm] at h

/-- A resized image passes the support check whenever the original did: the
mode is unchanged and the PIL result declares no format. -/
theorem is_supported_resize (c : Config) (img : PILImage)
    (h : is_supported c img = true) (size : Nat × Nat) (r : Nat) (g : ℚ) :
    is_supported c (PIL_resize img size r g) = true := by
  have hm := is_supported_mode_mem c img h
  simp [is_supported, PIL_resize, hm]

/-- Constructor success is exactly the `image` setter not raising: the
remaining `__init__` assignments (`size`, `format`, `fp`) never raise. -/
theorem init_ok_iff (c : Config) (img : PILImage) (size : Nat × Nat)
    (fmt : PyFmt) (fp : Option Nat) :
    (∃ st0, Image.init c img size fmt fp = Except.ok st0) ↔
      (setImage c img).err = none := by
  cases h : (setImage c img).err with
  | some e => simp [Image.init, h]
  | none => simp [Image.init, h]

/-! The claims. -/

/-- C1: For either shipped variant, constructing a profile succeeds exactly
when the decoded image's mode is a key of the variant's supported table and
its declared source format (when one is declared) is in that mode's list;
for any image outside that table, construction — and any later assignment to
`image` — raises `ImageSupportError`. -/
theorem C1_construction_support_check (c : Config)
    (hc : c = Icon ∨ c = Wallpaper) (img : PILImage) (size : Nat × Nat)
    (fmt : PyFmt) (fp : Option Nat) (st : ProfileState)
    (hf : ∀ s, img.format = some s → s ≠ "") :
    ((∃ st0, Image.init c img size fmt fp = Except.ok st0) ↔
      (img.mode ∈ SUPPORTED_MODES c ∧
        ∀ s, img.format = some s →
          s ∈ (SUPPORTED_FORMATS c (img.mode)).getD [])) ∧
    ((Image.assign c st img).2 = none ↔
      (img.mode ∈ SUPPORTED_MODES c ∧
        ∀ s, img.format = some s →
          s ∈ (SUPPORTED_FORMATS c (img.mode)).getD [])) := by
  have key : (setImage c img).err = none ↔
      (img.mode ∈ SUPPORTED_MODES c ∧
        ∀ s, img.format = some s →
          s ∈ (SUPPORTED_FORMATS c (img.mode)).getD []) :=
    (setImage_err_none_iff_variant c hc img).trans
      (is_supported_iff_mem c img hf)
  exact ⟨(init_ok_iff c img size fmt fp).trans key, key⟩

/-- C1 witness: an RGB/JPEG image constructs an Icon profile, and assigning
a CMYK/JPEG image to an Icon profile raises. -/
theorem C1_witness :
    (∃ st0, Image.init Icon rgbJpegImg (8, 6) (PyFmt.str "WEBP") none =
      Except.ok st0) ∧
    (Image.assign Icon rgbProfile cmykImg).2.isSome = true := by
  constructor
  · exact (C1_construction_support_check Icon (Or.inl rfl) rgbJpegImg (8, 6)
      (PyFmt.str "WEBP") none rgbProfile
      (fun s hs => by injection hs with h; subst h; decide)).1.mpr
      ⟨by decide, fun s hs => by injection hs with h; subst h; decide⟩
  · have hiff := (C1_construction_support_check Icon (Or.inl rfl) cmykImg
      (8, 6) (PyFmt.str "WEBP") none rgbProfile
      (fun s hs => by injection hs with h; subst h; decide)).2
    rw [Option.isSome_iff_ne_none]
    intro hnone
    exact absurd (hiff.mp hnone).1 (by decide)

/-- C2: with a preference list of more than one candidate, the three rules
fire mutually exclusively in source order — animated plus GIF candidate
gives GIF; else RGBA mode plus PNG candidate gives PNG; else RGB mode plus
JPEG candidate gives JPEG; and when no rule matches the setter assigns
nothing, leaving the `_format` slot as it was (unresolved at
construction). -/
theorem C2_preference_resolution (img : PILImage) (prev : Option PyFmt)
    (l : List String) (hl : l.length > 1) :
    ((is_animated img = true ∧ "GIF" ∈ l) →
        setFormat img prev (PyFmt.list l) = some (PyFmt.str "GIF")) ∧
    (¬ (is_animated img = true ∧ "GIF" ∈ l) →
      (img.mode = "RGBA" ∧ "PNG" ∈ l) →
        setFormat img prev (PyFmt.list l) = some (PyFmt.str "PNG")) ∧
    (¬ (is_animated img = true ∧ "GIF" ∈ l) →
      ¬ (img.mode = "RGBA" ∧ "PNG" ∈ l) →
      (img.mode = "RGB" ∧ "JPEG" ∈ l) →
        setFormat img prev (PyFmt.list l) = some (PyFmt.str "JPEG")) ∧
    (¬ (is_animated img = true ∧ "GIF" ∈ l) →
      ¬ (img.mode = "RGBA" ∧ "PNG" ∈ l) →
      ¬ (img.mode = "RGB" ∧ "JPEG" ∈ l) →
        setFormat img prev (PyFmt.list l) = prev) := by
  have hsf : setFormat img prev (PyFmt.list l) = resolveFormat img prev l := by
    simp [setFormat, hl]
  refine ⟨fun h1 => ?_, fun h1 h2 => ?_, fun h1 h2 h3 => ?_,
    fun h1 h2 h3 => ?_⟩
  · rw [hsf]; unfold resolveFormat; rw [if_pos h1]
  · rw [hsf]; unfold resolveFormat; rw [if_neg h1, if_pos h2]
  · rw [hsf]; unfold resolveFormat; rw [if_neg h1, if_neg h2, if_pos h3]
  · rw [hsf]; unfold resolveFormat; rw [if_neg h1, if_neg h2, if_neg h3]

/-- C2 witness: the spec's four worked examples — animated with
GIF/PNG gives GIF, WEBP/GIF on a static RGB image resolves to neither and
the slot stays unassigned, JPEG/PNG on static RGB gives JPEG, PNG/JPEG on
RGBA gives PNG. -/
theorem C2_witness :
    ((["GIF", "PNG"] : List String).length > 1 ∧
      setFormat animGifImg none (PyFmt.list ["GIF", "PNG"]) =
        some (PyFmt.str "GIF")) ∧
    setFormat rgbJpegImg none (PyFmt.list ["WEBP", "GIF"]) = none ∧
    setFormat rgbJpegImg none (PyFmt.list ["JPEG", "PNG"]) =
      some (PyFmt.str "JPEG") ∧
    setFormat rgbaClearImg none (PyFmt.list ["PNG", "JPEG"]) =
      some (PyFmt.str "PNG") := by
  refine ⟨⟨by decide, ?_⟩, ?_, ?_, ?_⟩
  · exact (C2_preference_resolution animGifImg none _ (by decide)).1
      ⟨by decide, by decide⟩
  · exact (C2_preference_resolution rgbJpegImg none _ (by decide)).2.2.2
      (by decide) (by decide) (by decide)
  · exact (C2_preference_resolution rgbJpegImg none _ (by decide)).2.2.1
      (by decide) (by decide) ⟨rfl, by decide⟩
  · exact (C2_preference_resolution rgbaClearImg none _ (by decide)).2.1
      (by decide) ⟨rfl, by decide⟩

/-- C5 counterexample: assigning a CMYK/JPEG image to a valid Icon profile
raises `ImageSupportError`, yet leaves that unsupported image stored in the
`_image` slot — the setter stores before it checks, so immediately after the
raising assignment the held image's mode is not a key of the table and the
claimed at-all-times invariant is broken. -/
theorem C5_counterexample :
    (Image.assign Icon rgbProfile cmykImg).2.isSome = true ∧
    (Image.assign Icon rgbProfile cmykImg).1.image = cmykImg ∧
    (SUPPORTED_MODES Icon).contains
      (Image.assign Icon rgbProfile cmykImg).1.image.mode = false := by
  decide

/-- C5 (amended): after every operation that completes without raising —
construction, a later `image` assignment, `resize` — the stored image passes
the supported-mode/format check; an assignment that raises, by contrast,
leaves the offending image stored (see the counterexample), so the invariant
holds on success only. -/
theorem C5_invariant_on_success (c : Config) (st : ProfileState)
    (img : PILImage) (size : Nat × Nat) (fmt : PyFmt) (fp : Option Nat) :
    (∀ st0, Image.init c img size fmt fp = Except.ok st0 →
        is_supported c st0.image = true) ∧
    ((Image.assign c st img).2 = none →
        is_supported c (Image.assign c st img).1.image = true) ∧
    ((Image.resize c st).2 = none →
        is_supported c (Image.resize c st).1.image = true) := by
  refine ⟨?_, ?_, ?_⟩
  · intro st0 h0
    cases h : (setImage c img).err with
    | some e => simp [Image.init, h] at h0
    | none =>
        simp [Image.init, h] at h0
        subst h0
        exact setImage_ok_stored_supported c img h
  · intro h
    exact setImage_ok_stored_supported c img h
  · intro h
    exact setImage_ok_stored_supported c
      (PIL_resize st.image st.size c.RESAMPLE c.REDUCING_GAP) h

/-- C5 witness: a successful assignment on which the amended invariant is
observed. -/
theorem C5_witness :
    (Image.assign Icon rgbProfile rgbJpegImg).2 = none ∧
    is_supported Icon (Image.assign Icon rgbProfile rgbJpegImg).1.image =
      true :=
  ⟨by decide,
   (C5_invariant_on_success Icon rgbProfile rgbJpegImg (8, 6)
      (PyFmt.str "WEBP") none).2.1 (by decide)⟩

/-- C6: on a supported assignment to either shipped variant, an RGBA image
whose alpha-band minimum is fully opaque (255) is stored as its RGB
conversion, while an RGBA image with any alpha below 255 is stored exactly
as given, mode unchanged. -/
theorem C6_opaque_rgba_converted (c : Config)
    (hc : c = Icon ∨ c = Wallpaper) (st : ProfileState) (img : PILImage)
    (hm : img.mode = "RGBA") (hs : is_supported c img = true) :
    (alpha_min img = 255 →
        (Image.assign c st img).2 = none ∧
        (Image.assign c st img).1.image = convertRGB img ∧
        (Image.assign c st img).1.image.mode = "RGB") ∧
    (alpha_min img < 255 →
        (Image.assign c st img).2 = none ∧
        (Image.assign c st img).1.image = img) := by
  have hconv := is_supported_convert_variant c hc img
  constructor
  · intro ha
    have hta : has_translucent_alpha img = false := by
      simp [has_translucent_alpha, ha]
    have hcond : img.mode = "RGBA" ∧ has_translucent_alpha img = false :=
      ⟨hm, hta⟩
    refine ⟨?_, ?_, ?_⟩
    · simp [Image.assign, setImage, hs, hcond, hconv]
    · simp [Image.assign, setImage, hs, hcond, hconv]
    · have : (Image.assign c st img).1.image = convertRGB img := by
        simp [Image.assign, setImage, hs, hcond, hconv]
      rw [this]
      simp [convertRGB]
  · intro ha
    have hta : has_translucent_alpha img = true := by
      simp [has_translucent_alpha, ha]
    have hcond : ¬ (img.mode = "RGBA" ∧ has_translucent_alpha img = false) :=
      by simp [hta]
    exact ⟨by simp [Image.assign, setImage, hs, hcond],
      by simp [Image.assign, setImage, hs, hcond]⟩

/-- C6 witness: the fully opaque RGBA PNG is stored as RGB, the genuinely
translucent one is stored untouched. -/
theorem C6_witness :
    (alpha_min rgbaOpaqueImg = 255 ∧
      (Image.assign Icon rgbaProfile rgbaOpaqueImg).1.image.mode = "RGB") ∧
    (alpha_min rgbaClearImg < 255 ∧
      (Image.assign Icon rgbaProfile rgbaClearImg).1.image = rgbaClearImg) :=
  ⟨⟨by decide,
    ((C6_opaque_rgba_converted Icon (Or.inl rfl) rgbaProfile rgbaOpaqueImg
      rfl (by decide)).1 (by decide)).2.2⟩,
   ⟨by decide,
    ((C6_opaque_rgba_converted Icon (Or.inl rfl) rgbaProfile rgbaClearImg
      rfl (by decide)).2 (by decide)).2⟩⟩

/-- C7 counterexample: the filter description is reversed relative to the
external PIL resampling enum — Icon's `RESAMPLE = 1` is PIL's LANCZOS (the
high-quality filter), not NEAREST, and Wallpaper's `RESAMPLE = 2` is PIL's
BILINEAR, not LANCZOS. -/
theorem C7_counterexample :
    Icon.RESAMPLE = PIL_LANCZOS ∧
    (Icon.RESAMPLE == PIL_NEAREST) = false ∧
    Wallpaper.RESAMPLE = PIL_BILINEAR ∧
    (Wallpaper.RESAMPLE == PIL_LANCZOS) = false := by
  decide

/-- C7 (amended): Icon is configured with resampling filter 1 (PIL's
Lanczos/antialias — high quality, not nearest-like), reducing gap 2.0,
quality 70 and table RGB→(JPEG,PNG,WEBP,GIF), RGBA→(PNG,GIF,WEBP), P→(GIF);
Wallpaper with filter 2 (PIL's bilinear — not a Lanczos equivalent), gap
2.0, quality 75 and table RGB→(JPEG,PNG), RGBA→(PNG).  In the embedding the
variants are plain `Config` values consumed by the shared profile
operations, so they differ in nothing but these constants. -/
theorem C7_variant_constants :
    Icon = { RESAMPLE := PIL_LANCZOS, REDUCING_GAP := 2, QUALITY := 70,
             SUPPORTED_IMAGES :=
               [("RGB", ["JPEG", "PNG", "WEBP", "GIF"]),
                ("RGBA", ["PNG", "GIF", "WEBP"]),
                ("P", ["GIF"])] } ∧
    Wallpaper = { RESAMPLE := PIL_BILINEAR, REDUCING_GAP := 2, QUALITY := 75,
                  SUPPORTED_IMAGES :=
                    [("RGB", ["JPEG", "PNG"]),
                     ("RGBA", ["PNG"])] } :=
  ⟨rfl, rfl⟩

/-- C8: on a profile of either shipped variant whose held image passes the
support check, `resize` completes without raising, the held image is
replaced by the result of the external resize called with the profile's
target size, the variant's filter and its reducing gap, and the new image's
dimensions equal the target size exactly. -/
theorem C8_resize_dimensions (c : Config) (hc : c = Icon ∨ c = Wallpaper)
    (st : ProfileState) (hs : is_supported c st.image = true) :
    (Image.resize c st).2 = none ∧
    (Image.resize c st).1.image.size = st.size ∧
    (Image.resize c st).1 =
      (Image.assign c st
        (PIL_resize st.image st.size c.RESAMPLE c.REDUCING_GAP)).1 := by
  have hsup :=
    is_supported_resize c st.image hs st.size c.RESAMPLE c.REDUCING_GAP
  exact ⟨(setImage_err_none_iff_variant c hc _).mpr hsup,
    setImage_stored_size c _, rfl⟩

/-- C8 witness: resizing the sample RGB profile succeeds and yields its
(4, 3) target dimensions. -/
theorem C8_witness :
    (Image.resize Icon rgbProfile).2 = none ∧
    (Image.resize Icon rgbProfile).1.image.size = (4, 3) :=
  ⟨(C8_resize_dimensions Icon (Or.inl rfl) rgbProfile (by decide)).1,
   (C8_resize_dimensions Icon (Or.inl rfl) rgbProfile (by decide)).2.1⟩

/-- C9: the animation query returns `false` when the image object carries no
`is_animated` attribute and the attribute's value when it does, and the
profile property delegates to the module helper on the stored image. -/
theorem C9_is_animated_getattr (img : PILImage) (st : ProfileState) :
    (img.animAttr = none → is_animated img = false) ∧
    (∀ b, img.animAttr = some b → is_animated img = b) ∧
    Image.profileIsAnimated st = is_animated st.image :=
  ⟨fun h => by simp [is_animated, h],
   fun b h => by simp [is_animated, h],
   rfl⟩

/-- C9 witness: a static JPEG without the attribute reads as not animated; a
GIF carrying `is_animated = True` reads as animated. -/
theorem C9_witness :
    is_animated rgbJpegImg = false ∧ is_animated animGifImg = true :=
  ⟨(C9_is_animated_getattr rgbJpegImg rgbProfile).1 rfl,
   (C9_is_animated_getattr animGifImg rgbProfile).2.1 true rfl⟩

/-- C10: preference resolution runs only for a list or tuple with more than
one element — a single-element list or tuple is stored in the `_format` slot
unchanged (not unwrapped to its sole string), exactly as a single string is
stored unchanged. -/
theorem C10_single_candidate_kept (img : PILImage) (prev : Option PyFmt)
    (s : String) :
    setFormat img prev (PyFmt.list [s]) = some (PyFmt.list [s]) ∧
    setFormat img prev (PyFmt.tup [s]) = some (PyFmt.tup [s]) ∧
    decide (setFormat img prev (PyFmt.list [s]) = some (PyFmt.str s)) =
      false ∧
    (∀ s2, setFormat img prev (PyFmt.str s2) = some (PyFmt.str s2)) := by
  refine ⟨by simp [setFormat], by simp [setFormat], ?_, fun s2 => rfl⟩
  rw [decide_eq_false_iff_not]
  simp [setFormat]

/-- C10 witness: a one-element preference list is kept as that list. -/
theorem C10_witness :
    setFormat rgbJpegImg none (PyFmt.list ["WEBP"]) =
      some (PyFmt.list ["WEBP"]) :=
  (C10_single_candidate_kept rgbJpegImg none "WEBP").1

/-- C3 (code bug): `Bulk.resize` cannot process profiles of the `Image`
class from the same file — the loop's first expression `obj.img.mode` reads
an attribute `Image` does not define, so every non-empty batch raises
`AttributeError` at its first item and no byte buffers are produced; only
the empty batch returns the (trivially per-item) empty list. -/
theorem C3_bulk_attribute_error :
    Image.attributeNames.contains "img" = false ∧
    Bulk.resize [] "" = Except.ok [] ∧
    Bulk.resize [rgbProfile] "" =
      Except.error (PyError.attributeError "img") ∧
    Bulk.resize [rgbProfile, rgbaProfile] "out/" =
      Except.error (PyError.attributeError "img") :=
  ⟨by decide, rfl, rfl, rfl⟩

/-- C4 (code bug): the consistency-improvement step cannot run — `Image`
defines neither `improve_consistency` nor the `img` attribute the RGBA guard
reads first, so a batch holding a genuinely translucent RGBA profile (a
state the `image` setter accepts and stores un-flattened) raises
`AttributeError` and encodes nothing at all. -/
theorem C4_consistency_step_missing :
    Image.attributeNames.contains "improve_consistency" = false ∧
    Image.attributeNames.contains "img" = false ∧
    rgbaProfile.image.mode = "RGBA" ∧
    is_supported Icon rgbaProfile.image = true ∧
    Bulk.resize [rgbaProfile] "" =
      Except.error (PyError.attributeError "img") :=
  ⟨by decide, by decide, rfl, by decide, rfl⟩
